import Mathlib

/-!
# Shallow embedding of the INA226 driver (SV-Zanshin/INA226)

The repository ships a single source file, `src/INA226.h`, containing the
register/mask/mode constants and the `INA226_Class` declaration.  The method
bodies (an `INA226.cpp`) are not under `src/`, so every behavioural definition
below is modelled from the specification's description of the corresponding
operation; the constants and the public member list are transcribed from the
header, which is the authority for them.

Machine integers are modelled as `Nat`/`Int` with explicit bounds or `%`
reductions where the C++ types could overflow.
-/

/-! ## Constants transcribed from src/INA226.h (lines 48-71) -/

def I2C_DELAY : Nat := 10

def INA_CONFIGURATION_REGISTER : Nat := 0

def INA_SHUNT_VOLTAGE_REGISTER : Nat := 1

def INA_BUS_VOLTAGE_REGISTER : Nat := 2

def INA_POWER_REGISTER : Nat := 3

def INA_CURRENT_REGISTER : Nat := 4

def INA_CALIBRATION_REGISTER : Nat := 5

def INA_MASK_ENABLE_REGISTER : Nat := 6

def INA_RESET_DEVICE : Nat := 0x8000

def INA_DEFAULT_CONFIGURATION : Nat := 0x4127

def INA_BUS_VOLTAGE_LSB : Nat := 125

def INA_SHUNT_VOLTAGE_LSB : Nat := 25

def INA_CONFIG_AVG_MASK : Nat := 0x0E00

def INA_CONFIG_BUS_TIME_MASK : Nat := 0x01C0

def INA_CONFIG_SHUNT_TIME_MASK : Nat := 0x0038

def INA_CONVERSION_READY_MASK : Nat := 0x0080

def INA_CONFIG_MODE_MASK : Nat := 0x0007

def INA_MODE_TRIGGERED_SHUNT : Nat := 1

def INA_MODE_TRIGGERED_BUS : Nat := 2

def INA_MODE_TRIGGERED_BOTH : Nat := 3

def INA_MODE_POWER_DOWN : Nat := 4

def INA_MODE_CONTINUOUS_SHUNT : Nat := 5

def INA_MODE_CONTINUOUS_BUS : Nat := 6

def INA_MODE_CONTINUOUS_BOTH : Nat := 7

/-- The seven legal operating modes enumerated in src/INA226.h lines 65-71. -/
def legalModes : List Nat :=
  [INA_MODE_TRIGGERED_SHUNT, INA_MODE_TRIGGERED_BUS, INA_MODE_TRIGGERED_BOTH,
   INA_MODE_POWER_DOWN, INA_MODE_CONTINUOUS_SHUNT, INA_MODE_CONTINUOUS_BUS,
   INA_MODE_CONTINUOUS_BOTH]

/-! ## Driver state (the private fields of INA226_Class, header lines 97-103) -/

/-- The cached scalar fields of `INA226_Class` (src/INA226.h lines 97-103).
Field types follow the header: `DeviceAddress` is a uint8, `Calibration` and
`Configuration` are uint16 register caches, `Current_LSB` is an int64 (always
non-negative here, kept as `Nat` with its int64 bound tracked in theorems),
`Power_LSB` is a uint32, `OperatingMode` is a 3-bit value. -/
structure INA226_State where
  DeviceAddress : Nat
  TransmissionStatus : Nat
  Calibration : Nat
  Configuration : Nat
  Current_LSB : Nat
  Power_LSB : Nat
  OperatingMode : Nat
deriving Repr, DecidableEq

/-- The default-initialised object: field initialisers of src/INA226.h
lines 97-103 (all zero except `_OperatingMode = B111`). -/
def initState : INA226_State :=
  { DeviceAddress := 0, TransmissionStatus := 0, Calibration := 0,
    Configuration := 0, Current_LSB := 0, Power_LSB := 0, OperatingMode := 7 }

/-- A bus write transaction: (register address, 16-bit value written). -/
abbrev BusWrite := Nat × Nat

/-! ## Initialisation arithmetic

Modelled from the spec: the body of `INA226_Class::begin` (declared at
src/INA226.h line 80) is not under src/. -/

/-- Modelled from the spec: the Current-LSB computation inside `begin`, whose
implementation file is missing.  "Current LSB = maxExpectedAmps × 10^9 / 2^15
(nanoamps per count, rounded up ...)"; the spec leaves the exact rounding
granularity as an implementation choice and asks only that the direction be
up, so plain ceiling division is used (it reproduces the spec §8 scenario
value 30518 for 1 A exactly). -/
def computeCurrentLSB (maxBusAmps : Nat) : Nat :=
  (maxBusAmps * 1000000000 + 32767) / 32768

/-- Modelled from the spec: the Power-LSB computation inside `begin`, whose
implementation file is missing.  "Power LSB = 25 × Current LSB", stored in the
uint32 field `_Power_LSB`. -/
def computePowerLSB (currentLSB : Nat) : Nat :=
  (25 * currentLSB) % 4294967296

/-- Modelled from the spec: the Calibration computation inside `begin`, whose
implementation file is missing.  "Calibration = round(0.00512 /
(CurrentLSB_in_amps × shuntResistance_in_ohms)), clipped to fit the register's
16-bit range."  With the LSB in nA/count and the resistance in nΩ this is
round(5.12·10^15 / (lsb · r)); round-half-up of p/q is ⌊(2p+q)/(2q)⌋, and the
16-bit clip caps the result at 65535. -/
def computeCalibration (currentLSB nanoOhmR : Nat) : Nat :=
  min ((2 * 5120000000000000 + currentLSB * nanoOhmR) /
        (2 * (currentLSB * nanoOhmR))) 65535

/-- Modelled from the spec: `INA226_Class::begin` (declared src/INA226.h line
80), whose implementation file is missing.  Computes Current LSB, Power LSB
and Calibration from the two parameters, caches them, and writes Calibration
and the default Configuration word to the device (two bus writes).  The I2C
address discovery is bus I/O and is outside the arithmetic model. -/
def begin (s : INA226_State) (maxBusAmps nanoOhmR : Nat) :
    INA226_State × List BusWrite :=
  let lsb := computeCurrentLSB maxBusAmps
  let cal := computeCalibration lsb nanoOhmR
  ({ s with Calibration := cal,
            Current_LSB := lsb,
            Power_LSB := computePowerLSB lsb,
            Configuration := INA_DEFAULT_CONFIGURATION },
   [(INA_CALIBRATION_REGISTER, cal),
    (INA_CONFIGURATION_REGISTER, INA_DEFAULT_CONFIGURATION)])

/-! ## Measurement conversions

Modelled from the spec: the bodies of `getBusMilliVolts` and
`getShuntMicroVolts` (declared src/INA226.h lines 81-82) are not under src/.
C++ integer division truncates toward zero, hence `Int.div`. -/

/-- Modelled from the spec: `INA226_Class::getBusMilliVolts` (declared
src/INA226.h line 81), whose implementation file is missing.  "Converts raw
signed register count × 1.25 mV/count (LSB = 125 in hundredths-of-mV units)
to whole millivolts": raw · 125 / 100. -/
def getBusMilliVolts (raw : Int) : Int :=
  Int.tdiv (raw * (INA_BUS_VOLTAGE_LSB : Int)) 100

/-- Modelled from the spec: `INA226_Class::getShuntMicroVolts` (declared
src/INA226.h line 82), whose implementation file is missing.  "Converts raw
signed register count × 2.5 µV/count" (LSB = 25 in tenths-of-µV units):
raw · 25 / 10, sign preserved by toward-zero division. -/
def getShuntMicroVolts (raw : Int) : Int :=
  Int.tdiv (raw * (INA_SHUNT_VOLTAGE_LSB : Int)) 10

/-! ## Configuration setters

Modelled from the spec: the bodies of `setMode`, `setAveraging`,
`setBusConversion`, `setShuntConversion` (declared src/INA226.h lines 86-89)
are not under src/.  Each updates only its own bit field of the cached
Configuration word and writes the word back; a sentinel input (UINT16_MAX for
averaging, UINT8_MAX for the conversion times) leaves the field unchanged and
performs no bus write. -/

/-- Modelled from the spec: `INA226_Class::setMode` (declared src/INA226.h
line 86), whose implementation file is missing.  "updates only the 3-bit mode
field of the cached Configuration, writes the full register back.  Accepts
the seven enumerated values; any other value is masked to its low 3 bits (no
validation error raised)."  The masked mode is also cached in
`_OperatingMode`. -/
def setMode (s : INA226_State) (mode : Nat) : INA226_State × List BusWrite :=
  let m := mode &&& INA_CONFIG_MODE_MASK
  let cfg := (s.Configuration &&& (65535 ^^^ INA_CONFIG_MODE_MASK)) ||| m
  ({ s with Configuration := cfg, OperatingMode := m },
   [(INA_CONFIGURATION_REGISTER, cfg)])

/-- Modelled from the spec: the quantisation of a requested averaging count to
one of the chip's 8 discrete averaging levels (1, 4, 16, 64, 128, 256, 512,
1024 samples, codes 0-7), part of the missing `setAveraging` body.  The spec
fixes only that there are 8 chip-defined levels; the largest level not
exceeding the request is chosen. -/
def averagingCode (averages : Nat) : Nat :=
  if averages >= 1024 then 7
  else if averages >= 512 then 6
  else if averages >= 256 then 5
  else if averages >= 128 then 4
  else if averages >= 64 then 3
  else if averages >= 16 then 2
  else if averages >= 4 then 1
  else 0

/-- Modelled from the spec: `INA226_Class::setAveraging` (declared
src/INA226.h line 87), whose implementation file is missing.  Sentinel
UINT16_MAX leaves the field unchanged with no bus write; otherwise only
bits 9-11 of the cached Configuration are replaced and the word is written
back. -/
def setAveraging (s : INA226_State) (averages : Nat) :
    INA226_State × List BusWrite :=
  if averages = 65535 then (s, [])
  else
    let cfg := (s.Configuration &&& (65535 ^^^ INA_CONFIG_AVG_MASK)) |||
                 (averagingCode averages <<< 9)
    ({ s with Configuration := cfg }, [(INA_CONFIGURATION_REGISTER, cfg)])

/-- Modelled from the spec: the quantisation of a requested conversion-time
argument (a uint8) to one of the chip's 8 discrete conversion-time levels
(codes 0-7), part of the missing `setBusConversion`/`setShuntConversion`
bodies.  The spec fixes only that there are 8 chip-defined levels; the
request is clamped to the code range. -/
def convTimeCode (convTime : Nat) : Nat :=
  min convTime 7

/-- Modelled from the spec: `INA226_Class::setBusConversion` (declared
src/INA226.h line 88), whose implementation file is missing.  Sentinel
UINT8_MAX leaves the field unchanged with no bus write; otherwise only
bits 6-8 of the cached Configuration are replaced and the word is written
back. -/
def setBusConversion (s : INA226_State) (convTime : Nat) :
    INA226_State × List BusWrite :=
  if convTime = 255 then (s, [])
  else
    let cfg := (s.Configuration &&& (65535 ^^^ INA_CONFIG_BUS_TIME_MASK)) |||
                 (convTimeCode convTime <<< 6)
    ({ s with Configuration := cfg }, [(INA_CONFIGURATION_REGISTER, cfg)])

/-- Modelled from the spec: `INA226_Class::setShuntConversion` (declared
src/INA226.h line 89), whose implementation file is missing.  Sentinel
UINT8_MAX leaves the field unchanged with no bus write; otherwise only
bits 3-5 of the cached Configuration are replaced and the word is written
back. -/
def setShuntConversion (s : INA226_State) (convTime : Nat) :
    INA226_State × List BusWrite :=
  if convTime = 255 then (s, [])
  else
    let cfg := (s.Configuration &&& (65535 ^^^ INA_CONFIG_SHUNT_TIME_MASK)) |||
                 (convTimeCode convTime <<< 3)
    ({ s with Configuration := cfg }, [(INA_CONFIGURATION_REGISTER, cfg)])

/-! ## Configuration field readback -/

/-- The averaging field of a Configuration word: bits 9-11. -/
def avgField (cfg : Nat) : Nat := (cfg &&& INA_CONFIG_AVG_MASK) >>> 9

/-- The bus-conversion-time field of a Configuration word: bits 6-8. -/
def busTimeField (cfg : Nat) : Nat := (cfg &&& INA_CONFIG_BUS_TIME_MASK) >>> 6

/-- The shunt-conversion-time field of a Configuration word: bits 3-5. -/
def shuntTimeField (cfg : Nat) : Nat :=
  (cfg &&& INA_CONFIG_SHUNT_TIME_MASK) >>> 3

/-- The operating-mode field of a Configuration word: bits 0-2. -/
def modeField (cfg : Nat) : Nat := cfg &&& INA_CONFIG_MODE_MASK

/-! ## Conversion-ready polling

Modelled from the spec: the body of `waitForConversion` (declared
src/INA226.h line 91) is not under src/. -/

/-- The conversion-ready test applied to a polled Mask/Enable register value:
the bit selected by `INA_CONVERSION_READY_MASK` (0x0080, src/INA226.h
line 63) is set. -/
def conversionReady (v : Nat) : Bool :=
  v &&& INA_CONVERSION_READY_MASK != 0

/-- Modelled from the spec: `INA226_Class::waitForConversion` (declared
src/INA226.h line 91), whose implementation file is missing.  "blocks (pure
busy-wait) until the conversion-ready bit is observed set, then returns.  No
timeout."  The device is modelled as the stream `readings` of successive
polled register values; the loop is given explicit fuel, and returns the
index of the first ready poll, or `none` when the fuel runs out — so "no
timeout" is the statement that no amount of fuel makes it return on a
never-ready device. -/
def waitForConversion (readings : Nat → Nat) : Nat → Nat → Option Nat
  | 0, _ => none
  | fuel + 1, i =>
      if conversionReady (readings i) then some i
      else waitForConversion readings fuel (i + 1)

/-! ## Public interface surface (src/INA226.h lines 76-91) -/

/-- The public members of `INA226_Class`, transcribed in declaration order
from src/INA226.h lines 78-91: the constructor, the destructor, and twelve
methods. -/
def publicMembers : List String :=
  ["INA226_Class", "~INA226_Class", "begin", "getBusMilliVolts",
   "getShuntMicroVolts", "getBusMicroAmps", "getBusMicroWatts", "reset",
   "setMode", "setAveraging", "setBusConversion", "setShuntConversion",
   "setAlertPinOnConversion", "waitForConversion"]

/-- The operations enumerated in spec §4.1, written under the header's names
(§4.1 "Initialize" is the header's `begin`, "GetBusVoltage" is
`getBusMilliVolts`, "GetShuntVoltage" is `getShuntMicroVolts`,
"SetBusConversionTime" is `setBusConversion`, "SetShuntConversionTime" is
`setShuntConversion`; the remaining six names match up to capitalisation). -/
def spec41Operations : List String :=
  ["begin", "getBusMilliVolts", "getShuntMicroVolts", "getBusMicroAmps",
   "getBusMicroWatts", "setMode", "setAveraging", "setBusConversion",
   "setShuntConversion", "setAlertPinOnConversion", "waitForConversion"]

/-! ## Bitwise helper lemmas -/

/-- Replacing the field selected by mask `m` (inside a 16-bit word) does not
change the bits selected by a disjoint mask `p`. -/
theorem maskedUpdate_preserves (x v m p : Nat)
    (hvp : v &&& p = 0) (hmp : (65535 ^^^ m) &&& p = p) :
    ((x &&& (65535 ^^^ m)) ||| v) &&& p = x &&& p := by
  apply Nat.eq_of_testBit_eq
  intro i
  have h1 : (v &&& p).testBit i = Nat.testBit 0 i := by rw [hvp]
  have h2 : ((65535 ^^^ m) &&& p).testBit i = p.testBit i := by rw [hmp]
  rw [Nat.testBit_and, Nat.zero_testBit] at h1
  rw [Nat.testBit_and] at h2
  rw [Nat.testBit_and, Nat.testBit_or, Nat.testBit_and]
  cases hp : p.testBit i with
  | false => simp [hp]
  | true =>
    rw [hp] at h1 h2
    simp only [Bool.and_true] at h1 h2
    simp [hp, h1, h2]

/-- Reading back the field selected by mask `m` after replacing it with a
value `v` already inside the mask yields exactly `v`. -/
theorem maskedUpdate_readback (x v m : Nat)
    (hv : v &&& m = v) (hm : (65535 ^^^ m) &&& m = 0) :
    ((x &&& (65535 ^^^ m)) ||| v) &&& m = v := by
  apply Nat.eq_of_testBit_eq
  intro i
  have h1 : (v &&& m).testBit i = v.testBit i := by rw [hv]
  have h2 : ((65535 ^^^ m) &&& m).testBit i = Nat.testBit 0 i := by rw [hm]
  rw [Nat.testBit_and] at h1
  rw [Nat.testBit_and, Nat.zero_testBit] at h2
  rw [Nat.testBit_and, Nat.testBit_or, Nat.testBit_and]
  cases hmi : m.testBit i with
  | false =>
    rw [hmi] at h1
    simp only [Bool.and_false] at h1
    simp [hmi, ← h1]
  | true =>
    rw [hmi] at h2
    simp only [Bool.and_true] at h2
    simp [hmi, h2]

/-- Masking before a right shift can only shrink the result. -/
theorem and_shiftRight_le (y m s : Nat) : (y &&& m) >>> s ≤ m >>> s := by
  rw [Nat.shiftRight_eq_div_pow, Nat.shiftRight_eq_div_pow]
  exact Nat.div_le_div_right Nat.and_le_right

/-- The averaging quantiser produces a 3-bit code. -/
theorem averagingCode_lt (a : Nat) : averagingCode a < 8 := by
  unfold averagingCode
  repeat' split
  all_goals omega

/-- The conversion-time quantiser produces a 3-bit code. -/
theorem convTimeCode_lt (t : Nat) : convTimeCode t < 8 := by
  unfold convTimeCode
  omega

/-- A 3-bit code shifted to any of the three field positions is disjoint from
each of the other fields' masks. -/
theorem shiftedCode_disjoint (c : Nat) (hc : c < 8) :
    ((c <<< 9) &&& INA_CONFIG_BUS_TIME_MASK = 0 ∧
     (c <<< 9) &&& INA_CONFIG_SHUNT_TIME_MASK = 0 ∧
     (c <<< 9) &&& INA_CONFIG_MODE_MASK = 0) ∧
    ((c <<< 6) &&& INA_CONFIG_AVG_MASK = 0 ∧
     (c <<< 6) &&& INA_CONFIG_SHUNT_TIME_MASK = 0 ∧
     (c <<< 6) &&& INA_CONFIG_MODE_MASK = 0) ∧
    ((c <<< 3) &&& INA_CONFIG_AVG_MASK = 0 ∧
     (c <<< 3) &&& INA_CONFIG_BUS_TIME_MASK = 0 ∧
     (c <<< 3) &&& INA_CONFIG_MODE_MASK = 0) := by
  interval_cases c <;> exact (by decide)

/-- Reducing `setAveraging` on a non-sentinel argument. -/
theorem setAveraging_apply (s : INA226_State) (a : Nat) (ha : a ≠ 65535) :
    (setAveraging s a).1.Configuration =
      (s.Configuration &&& (65535 ^^^ INA_CONFIG_AVG_MASK)) |||
        (averagingCode a <<< 9) := by
  unfold setAveraging
  rw [if_neg ha]

/-- Reducing `setBusConversion` on a non-sentinel argument. -/
theorem setBusConversion_apply (s : INA226_State) (t : Nat) (ht : t ≠ 255) :
    (setBusConversion s t).1.Configuration =
      (s.Configuration &&& (65535 ^^^ INA_CONFIG_BUS_TIME_MASK)) |||
        (convTimeCode t <<< 6) := by
  unfold setBusConversion
  rw [if_neg ht]

/-- Reducing `setShuntConversion` on a non-sentinel argument. -/
theorem setShuntConversion_apply (s : INA226_State) (t : Nat) (ht : t ≠ 255) :
    (setShuntConversion s t).1.Configuration =
      (s.Configuration &&& (65535 ^^^ INA_CONFIG_SHUNT_TIME_MASK)) |||
        (convTimeCode t <<< 3) := by
  unfold setShuntConversion
  rw [if_neg ht]

/-- The mode field read back after `setMode` is the requested mode masked to
its low 3 bits. -/
theorem setMode_modeField (s : INA226_State) (mode : Nat) :
    modeField (setMode s mode).1.Configuration =
      mode &&& INA_CONFIG_MODE_MASK := by
  show ((s.Configuration &&& (65535 ^^^ INA_CONFIG_MODE_MASK)) |||
          (mode &&& INA_CONFIG_MODE_MASK)) &&& INA_CONFIG_MODE_MASK =
        mode &&& INA_CONFIG_MODE_MASK
  exact maskedUpdate_readback _ _ _ (by rw [Nat.and_assoc, Nat.and_self])
    (by decide)

/-- Each Configuration field is a 3-bit value, on any word. -/
theorem avgField_le (cfg : Nat) : avgField cfg ≤ 7 := by
  have h := and_shiftRight_le cfg INA_CONFIG_AVG_MASK 9
  have h2 : INA_CONFIG_AVG_MASK >>> 9 = 7 := by decide
  rw [h2] at h
  unfold avgField
  exact h

/-- The bus-conversion-time field is a 3-bit value, on any word. -/
theorem busTimeField_le (cfg : Nat) : busTimeField cfg ≤ 7 := by
  have h := and_shiftRight_le cfg INA_CONFIG_BUS_TIME_MASK 6
  have h2 : INA_CONFIG_BUS_TIME_MASK >>> 6 = 7 := by decide
  rw [h2] at h
  unfold busTimeField
  exact h

/-- The shunt-conversion-time field is a 3-bit value, on any word. -/
theorem shuntTimeField_le (cfg : Nat) : shuntTimeField cfg ≤ 7 := by
  have h := and_shiftRight_le cfg INA_CONFIG_SHUNT_TIME_MASK 3
  have h2 : INA_CONFIG_SHUNT_TIME_MASK >>> 3 = 7 := by decide
  rw [h2] at h
  unfold shuntTimeField
  exact h

/-- The mode field is a 3-bit value, on any word. -/
theorem modeField_le (cfg : Nat) : modeField cfg ≤ 7 := by
  unfold modeField
  exact Nat.and_le_right

/-! ## Claim theorems -/

/-- Claim C1, counterexample: with maxExpectedAmps = 255 (> 0) and
shuntResistanceNanoOhms = 4294967295 (> 0), the Calibration value computed by
`begin` is 0, outside the claimed interval [1, 65535]. -/
theorem begin_calibration_zero_at_extreme :
    0 < (255 : Nat) ∧ 0 < (4294967295 : Nat) ∧
    (begin initState 255 4294967295).1.Calibration = 0 ∧
    (begin initState 255 4294967295).1.Calibration < 1 := by
  refine ⟨by decide, by decide, by decide, by decide⟩

/-- Claim C1 (amended): for every maxExpectedAmps in 1..255 and every
shuntResistanceNanoOhms > 0 passed to `begin`, the computed Calibration value
lies in [0, 65535] (the lower end 0 is reached, so 1 is not a lower bound),
and the computed Power LSB equals exactly 25 times the Current LSB. -/
theorem begin_calibration_bounded_powerLSB (s : INA226_State) (a r : Nat)
    (ha0 : 0 < a) (ha : a ≤ 255) (hr : 0 < r) :
    (begin s a r).1.Calibration ≤ 65535 ∧
    (begin s a r).1.Power_LSB = 25 * (begin s a r).1.Current_LSB := by
  constructor
  · show computeCalibration (computeCurrentLSB a) r ≤ 65535
    exact Nat.min_le_right _ _
  · show computePowerLSB (computeCurrentLSB a) = 25 * computeCurrentLSB a
    have hlsb : computeCurrentLSB a ≤ 7781983 := by
      unfold computeCurrentLSB
      have hnum : a * 1000000000 + 32767 ≤ 255000032767 := by omega
      calc (a * 1000000000 + 32767) / 32768
          ≤ 255000032767 / 32768 := Nat.div_le_div_right hnum
        _ = 7781983 := by decide
    unfold computePowerLSB
    exact Nat.mod_eq_of_lt (by omega)

/-- Witness for `begin_calibration_bounded_powerLSB` at the spec §8 scenario
(1 A, 0.1 Ω). -/
theorem begin_calibration_bounded_powerLSB_witness :
    (begin initState 1 100000000).1.Calibration ≤ 65535 ∧
    (begin initState 1 100000000).1.Power_LSB =
      25 * (begin initState 1 100000000).1.Current_LSB :=
  begin_calibration_bounded_powerLSB initState 1 100000000 (by decide)
    (by decide) (by decide)

/-- Claim C2: `getBusMilliVolts` converts the raw bus-voltage count at
1.25 mV per count (LSB constant 125 in hundredths-of-millivolt units); raw
count 100 gives exactly 125 mV and raw count 1000 gives exactly 1250 mV. -/
theorem getBusMilliVolts_lsb_and_values :
    INA_BUS_VOLTAGE_LSB = 125 ∧
    getBusMilliVolts 100 = 125 ∧
    getBusMilliVolts 1000 = 1250 := by
  refine ⟨by decide, by decide, by decide⟩

/-- Claim C3: `getShuntMicroVolts` converts the raw signed shunt-voltage
count at 2.5 µV per count (LSB constant 25 in tenths-of-microvolt units),
preserving sign; raw signed count -40 gives exactly -100 µV. -/
theorem getShuntMicroVolts_lsb_and_values :
    INA_SHUNT_VOLTAGE_LSB = 25 ∧
    getShuntMicroVolts (-40) = -100 ∧
    getShuntMicroVolts 40 = 100 ∧
    (∀ raw : Int, getShuntMicroVolts (-raw) = -(getShuntMicroVolts raw)) := by
  refine ⟨by decide, by decide, by decide, ?_⟩
  intro raw
  unfold getShuntMicroVolts
  rw [Int.neg_mul]
  exact Int.neg_tdiv _ _ ▸ rfl

/-- Claim C4: `setMode` followed by reading back the cached mode field yields
exactly the requested mode for each of the 7 legal enumerated values, and for
every other 8-bit input the stored mode is the input masked to its low 3 bits
(mask 0x0007); `setMode` is total, raising no validation error. -/
theorem setMode_legal_readback (s : INA226_State) (mode : Nat)
    (h : mode < 256) :
    modeField (setMode s mode).1.Configuration =
      mode &&& INA_CONFIG_MODE_MASK ∧
    (setMode s mode).1.OperatingMode = mode &&& INA_CONFIG_MODE_MASK ∧
    (mode ∈ legalModes →
      modeField (setMode s mode).1.Configuration = mode) := by
  refine ⟨setMode_modeField s mode, rfl, ?_⟩
  intro hmem
  rw [setMode_modeField s mode]
  simp only [legalModes, INA_MODE_TRIGGERED_SHUNT, INA_MODE_TRIGGERED_BUS,
    INA_MODE_TRIGGERED_BOTH, INA_MODE_POWER_DOWN, INA_MODE_CONTINUOUS_SHUNT,
    INA_MODE_CONTINUOUS_BUS, INA_MODE_CONTINUOUS_BOTH, List.mem_cons,
    List.not_mem_nil, or_false] at hmem
  rcases hmem with rfl | rfl | rfl | rfl | rfl | rfl | rfl <;> decide

/-- Witness for `setMode_legal_readback` at mode 5 (continuous shunt). -/
theorem setMode_legal_readback_witness :
    modeField (setMode initState 5).1.Configuration =
      5 &&& INA_CONFIG_MODE_MASK ∧
    (setMode initState 5).1.OperatingMode = 5 &&& INA_CONFIG_MODE_MASK ∧
    (5 ∈ legalModes → modeField (setMode initState 5).1.Configuration = 5) :=
  setMode_legal_readback initState 5 (by decide)

/-- The property asserted by claim C5: each of `setAveraging`,
`setBusConversion`, `setShuntConversion` on a non-sentinel argument leaves
the other three Configuration fields unchanged, and on its sentinel argument
(UINT16_MAX resp. UINT8_MAX) returns the state unchanged with no bus
write. -/
def settersFrameSentinel (s : INA226_State) (a bt st : Nat) : Prop :=
  (busTimeField (setAveraging s a).1.Configuration =
      busTimeField s.Configuration ∧
   shuntTimeField (setAveraging s a).1.Configuration =
      shuntTimeField s.Configuration ∧
   modeField (setAveraging s a).1.Configuration =
      modeField s.Configuration) ∧
  (avgField (setBusConversion s bt).1.Configuration =
      avgField s.Configuration ∧
   shuntTimeField (setBusConversion s bt).1.Configuration =
      shuntTimeField s.Configuration ∧
   modeField (setBusConversion s bt).1.Configuration =
      modeField s.Configuration) ∧
  (avgField (setShuntConversion s st).1.Configuration =
      avgField s.Configuration ∧
   busTimeField (setShuntConversion s st).1.Configuration =
      busTimeField s.Configuration ∧
   modeField (setShuntConversion s st).1.Configuration =
      modeField s.Configuration) ∧
  setAveraging s 65535 = (s, []) ∧
  setBusConversion s 255 = (s, []) ∧
  setShuntConversion s 255 = (s, [])

/-- Claim C5: the three timing/averaging setters each update only their own
bit field of the cached Configuration word, and their sentinel default
arguments leave the state unchanged and perform no bus write. -/
theorem setters_frame_and_sentinel (s : INA226_State) (a bt st : Nat)
    (ha : a ≠ 65535) (hb : bt ≠ 255) (hst : st ≠ 255) :
    settersFrameSentinel s a bt st := by
  have hdA := shiftedCode_disjoint _ (averagingCode_lt a)
  have hdB := shiftedCode_disjoint _ (convTimeCode_lt bt)
  have hdS := shiftedCode_disjoint _ (convTimeCode_lt st)
  unfold settersFrameSentinel
  refine ⟨⟨?_, ?_, ?_⟩, ⟨?_, ?_, ?_⟩, ⟨?_, ?_, ?_⟩, ?_, ?_, ?_⟩
  · unfold busTimeField
    rw [setAveraging_apply s a ha,
      maskedUpdate_preserves _ _ _ _ hdA.1.1 (by decide)]
  · unfold shuntTimeField
    rw [setAveraging_apply s a ha,
      maskedUpdate_preserves _ _ _ _ hdA.1.2.1 (by decide)]
  · unfold modeField
    rw [setAveraging_apply s a ha,
      maskedUpdate_preserves _ _ _ _ hdA.1.2.2 (by decide)]
  · unfold avgField
    rw [setBusConversion_apply s bt hb,
      maskedUpdate_preserves _ _ _ _ hdB.2.1.1 (by decide)]
  · unfold shuntTimeField
    rw [setBusConversion_apply s bt hb,
      maskedUpdate_preserves _ _ _ _ hdB.2.1.2.1 (by decide)]
  · unfold modeField
    rw [setBusConversion_apply s bt hb,
      maskedUpdate_preserves _ _ _ _ hdB.2.1.2.2 (by decide)]
  · unfold avgField
    rw [setShuntConversion_apply s st hst,
      maskedUpdate_preserves _ _ _ _ hdS.2.2.1 (by decide)]
  · unfold busTimeField
    rw [setShuntConversion_apply s st hst,
      maskedUpdate_preserves _ _ _ _ hdS.2.2.2.1 (by decide)]
  · unfold modeField
    rw [setShuntConversion_apply s st hst,
      maskedUpdate_preserves _ _ _ _ hdS.2.2.2.2 (by decide)]
  · unfold setAveraging
    rw [if_pos rfl]
  · unfold setBusConversion
    rw [if_pos rfl]
  · unfold setShuntConversion
    rw [if_pos rfl]

/-- Witness for `setters_frame_and_sentinel` at averaging request 100, bus
conversion request 2, shunt conversion request 5. -/
theorem setters_frame_and_sentinel_witness :
    settersFrameSentinel initState 100 2 5 :=
  setters_frame_and_sentinel initState 100 2 5 (by decide) (by decide)
    (by decide)

/-- Claim C6, counterexample: after initialising and then calling
`setMode 0`, the mode field of the cached Configuration word holds the
reserved bit pattern 0, which is not one of the seven enumerated operating
modes — so not every operation leaves all four fields on valid enumerated
values. -/
theorem setMode_zero_out_of_enum :
    modeField (setMode (begin initState 1 100000000).1 0).1.Configuration
      = 0 ∧
    modeField (setMode (begin initState 1 100000000).1 0).1.Configuration
      ∉ legalModes := by
  refine ⟨by decide, by decide⟩

/-- Claim C6 (amended): the cached Configuration register value is a 16-bit
word packed as four fields at fixed positions — averaging in bits 9-11, bus
conversion time in bits 6-8, shunt conversion time in bits 3-5, operating
mode in bits 0-2.  The averaging and conversion-time fields always hold 3-bit
codes 0-7, all of which are chip-defined settings; the mode field always
holds the low 3 bits of the last requested mode, which is one of the seven
enumerated modes unless a mode ≡ 0 (mod 8) was requested, in which case it is
the reserved pattern 0 (the default Configuration word holds the valid mode
continuous-both). -/
theorem config_fields_layout_and_range :
    INA_CONFIG_AVG_MASK = 2 ^ 9 + 2 ^ 10 + 2 ^ 11 ∧
    INA_CONFIG_BUS_TIME_MASK = 2 ^ 6 + 2 ^ 7 + 2 ^ 8 ∧
    INA_CONFIG_SHUNT_TIME_MASK = 2 ^ 3 + 2 ^ 4 + 2 ^ 5 ∧
    INA_CONFIG_MODE_MASK = 2 ^ 0 + 2 ^ 1 + 2 ^ 2 ∧
    (∀ cfg, avgField cfg ≤ 7 ∧ busTimeField cfg ≤ 7 ∧
        shuntTimeField cfg ≤ 7 ∧ modeField cfg ≤ 7) ∧
    (∀ s mode, modeField (setMode s mode).1.Configuration =
        mode &&& INA_CONFIG_MODE_MASK) ∧
    modeField INA_DEFAULT_CONFIGURATION = INA_MODE_CONTINUOUS_BOTH := by
  refine ⟨by decide, by decide, by decide, by decide, ?_,
    fun s mode => setMode_modeField s mode, by decide⟩
  intro cfg
  exact ⟨avgField_le cfg, busTimeField_le cfg, shuntTimeField_le cfg,
    modeField_le cfg⟩

/-- Claim C7, counterexample: `reset` is a public member of `INA226_Class`
(src/INA226.h line 85) but is not among the operations enumerated in spec
§4.1, and §4.1 enumerates eleven operations, not fourteen — so the public
interface is not exactly "the fourteen operations enumerated in §4.1". -/
theorem reset_public_but_not_in_spec41 :
    "reset" ∈ publicMembers ∧
    "reset" ∉ spec41Operations ∧
    publicMembers.length = 14 ∧
    spec41Operations.length = 11 := by
  refine ⟨by decide, by decide, by decide, by decide⟩

/-- Claim C7 (amended): the public interface of the driver consists of
exactly fourteen members: the eleven operations enumerated in spec §4.1
together with `reset`, the constructor, and the destructor; nothing else is
publicly callable. -/
theorem public_surface_fourteen :
    publicMembers.length = 14 ∧
    (∀ x ∈ spec41Operations, x ∈ publicMembers) ∧
    publicMembers.filter (fun x => !(spec41Operations.contains x)) =
      ["INA226_Class", "~INA226_Class", "reset"] := by
  refine ⟨by decide, by decide, by decide⟩

/-- Claim C8: `waitForConversion` returns only after the conversion-ready
bit has been observed set, and has no timeout: whatever index it returns was
a ready poll, and on a device whose ready bit is never set it does not return
for any amount of fuel (the caller hangs indefinitely). -/
theorem waitForConversion_only_on_ready (readings : Nat → Nat) :
    (∀ fuel i j, waitForConversion readings fuel i = some j →
        conversionReady (readings j) = true) ∧
    ((∀ n, conversionReady (readings n) = false) →
        ∀ fuel i, waitForConversion readings fuel i = none) := by
  constructor
  · intro fuel
    induction fuel with
    | zero =>
      intro i j h
      simp [waitForConversion] at h
    | succ n ih =>
      intro i j h
      simp only [waitForConversion] at h
      by_cases hr : conversionReady (readings i) = true
      · rw [if_pos hr] at h
        injection h with hij
        rw [← hij]
        exact hr
      · rw [if_neg hr] at h
        exact ih (i + 1) j h
  · intro hnone fuel
    induction fuel with
    | zero =>
      intro i
      rfl
    | succ n ih =>
      intro i
      simp only [waitForConversion, hnone i]
      simpa using ih (i + 1)

/-- Witness for `waitForConversion_only_on_ready` on the never-ready device
(all polls read 0): five polls starting anywhere return nothing. -/
theorem waitForConversion_only_on_ready_witness :
    waitForConversion (fun _ => 0) 5 0 = none :=
  (waitForConversion_only_on_ready (fun _ => 0)).2 (fun _ => rfl) 5 0

/-- Claim C9: the cached Calibration, Current LSB and Power LSB computed by
`begin` are a pure function of (maxExpectedAmps, shuntResistanceNanoOhms):
they do not depend on the prior state, so calling `begin` twice with
identical parameters yields identical values. -/
theorem begin_derived_values_pure (s1 s2 : INA226_State) (a r : Nat) :
    (begin s1 a r).1.Calibration = (begin s2 a r).1.Calibration ∧
    (begin s1 a r).1.Current_LSB = (begin s2 a r).1.Current_LSB ∧
    (begin s1 a r).1.Power_LSB = (begin s2 a r).1.Power_LSB ∧
    (begin (begin s1 a r).1 a r).1.Calibration = (begin s1 a r).1.Calibration ∧
    (begin (begin s1 a r).1 a r).1.Current_LSB = (begin s1 a r).1.Current_LSB ∧
    (begin (begin s1 a r).1 a r).1.Power_LSB = (begin s1 a r).1.Power_LSB :=
  ⟨rfl, rfl, rfl, rfl, rfl, rfl⟩

/-- Claim C10: the conversion-ready condition tested by `waitForConversion`
is the bit selected by mask 0x0080 — bit 7 of the polled register value, not
bit 4 as the source comment says: the ready test holds on `v` iff
`v AND 0x0080` is non-zero, i.e. iff bit 7 of `v` is set (a value with only
bit 4 set is not ready), and one step of the wait loop returns on exactly
that condition. -/
theorem conversionReady_selects_bit7 :
    INA_CONVERSION_READY_MASK = 2 ^ 7 ∧
    (∀ v, conversionReady v = v.testBit 7) ∧
    conversionReady 16 = false ∧
    conversionReady 128 = true ∧
    (∀ readings fuel i, waitForConversion readings (fuel + 1) i =
        if conversionReady (readings i) then some i
        else waitForConversion readings fuel (i + 1)) := by
  refine ⟨by decide, ?_, by decide, by decide, fun readings fuel i => rfl⟩
  intro v
  have h : v &&& INA_CONVERSION_READY_MASK = (v.testBit 7).toNat * 2 ^ 7 := by
    have h128 : INA_CONVERSION_READY_MASK = 2 ^ 7 := by decide
    rw [h128, Nat.and_two_pow]
  unfold conversionReady
  rw [h]
  cases hb : v.testBit 7 <;> decide
